import Mathlib

/-!
Verification of the Lantaka reservation dashboard endpoint
(src/apiDashboardData.py) against its natural-language specification.

The file shallowly embeds the request-scoped logic of the endpoint:
calendar dates are a year/month/day record of naturals (Python
datetime.date), date arithmetic is explicit, numeric values are exact
rationals, database rows are lists of records, and every HTTP outcome is
a constructor of an explicit response type.  Collaborators that are out
of scope (the ORM transport, the chart and spreadsheet renderers) enter
as parameters whose possible faults are an Except value.
-/

namespace Lantaka

/-! ## String constants appearing in the endpoint -/

def statusReady : String := "ready"

def modeMonthly : String := "monthly"

def modeDaily : String := "daily"

def fmtExcel : String := "excel"

def fmtPdf : String := "pdf"

def fmtXml : String := "xml"

def emptyStr : String := ""

def nameRoomGuests : String := "Room Guests"

def nameVenueVisitors : String := "Venue Visitors"

def periodMonth : String := "month"

def periodWeek : String := "week"

def msgBadDate : String := "Invalid date format. Use YYYY-MM-DD"

def msgInverted : String := "Start date cannot be after end date"

def msgBadExport : String := "Unsupported export format"

def msgInternal : String := "An internal server error occurred"

def msgExcelFail : String := "Failed to generate Excel report"

def msgPdfFail : String := "Failed to generate PDF report"

def ctXlsx : String := "application/vnd.openxmlformats-officedocument.spreadsheetml.sheet"

def ctPdf : String := "application/pdf"

def strNotADate : String := "not-a-date"

/-! ## Calendar dates

Python datetime.date values: a proleptic-Gregorian calendar date.
daysInMonth and isleap embed the stdlib calendar.monthrange table used
at lines 29 and 89 of the source. -/

structure PyDate where
  year : Nat
  month : Nat
  day : Nat
deriving DecidableEq

def isleap (y : Nat) : Bool :=
  y % 4 == 0 && (!(y % 100 == 0) || y % 400 == 0)

def daysInMonth (y : Nat) (m : Nat) : Nat :=
  if m = 2 then (if isleap y then 29 else 28)
  else if m = 4 ∨ m = 6 ∨ m = 9 ∨ m = 11 then 30
  else 31

/-- Embeds get_month_range (source lines 26-30): first and last day of
the month of the given date. -/
def get_month_range (d : PyDate) : PyDate × PyDate :=
  (⟨d.year, d.month, 1⟩, ⟨d.year, d.month, daysInMonth d.year d.month⟩)

/-- The calendar day immediately before a date (Python
date - timedelta(days=1) on valid dates). -/
def predDay (d : PyDate) : PyDate :=
  if 1 < d.day then ⟨d.year, d.month, d.day - 1⟩
  else if 1 < d.month then ⟨d.year, d.month - 1, daysInMonth d.year (d.month - 1)⟩
  else ⟨d.year - 1, 12, 31⟩

/-- Python date - timedelta(days=n): n applications of predDay. -/
def subDays (d : PyDate) : Nat → PyDate
  | 0 => d
  | Nat.succ n => predDay (subDays d n)

/-- Days in months 1..m-1 of year y (helper for the day-ordinal map). -/
def daysBeforeMonth (y : Nat) : Nat → Nat
  | 0 => 0
  | 1 => 0
  | Nat.succ (Nat.succ n) =>
      daysBeforeMonth y (Nat.succ n) + daysInMonth y (Nat.succ n)

/-- Python date.toordinal: day number of a proleptic-Gregorian date,
with 0001-01-01 mapped to 1. -/
def toOrdinal (d : PyDate) : Nat :=
  365 * (d.year - 1) + (d.year - 1) / 4 - (d.year - 1) / 100 + (d.year - 1) / 400
    + daysBeforeMonth d.year d.month + d.day

/-- Lexicographic order on dates: Python comparison of date values. -/
def dateLe (a b : PyDate) : Bool :=
  decide (a.year < b.year ∨ (a.year = b.year ∧
    (a.month < b.month ∨ (a.month = b.month ∧ a.day ≤ b.day))))

/-- Strict lexicographic order on dates. -/
def dateLt (a b : PyDate) : Bool :=
  decide (a.year < b.year ∨ (a.year = b.year ∧
    (a.month < b.month ∨ (a.month = b.month ∧ a.day < b.day))))

/-- A date that Python datetime.date would accept. -/
def valid_date (d : PyDate) : Prop :=
  1 ≤ d.month ∧ d.month ≤ 12 ∧ 1 ≤ d.day ∧ d.day ≤ daysInMonth d.year d.month

instance (d : PyDate) : Decidable (valid_date d) := by
  unfold valid_date; infer_instance

/-! ## Delta calculator -/

/-- Embeds calculate_percentage_change (source lines 36-43) on its
numeric path, with exact rational arithmetic standing for Python
int/float values. -/
def calculate_percentage_change (current previous : Rat) : Rat :=
  if previous = 0 then (if 0 < current then 100 else 0)
  else ((current - previous) / abs previous) * 100

/-- Floor of a rational number (the denominator is positive). -/
def rat_floor (x : Rat) : Int := Int.fdiv x.num x.den

/-- Round half to even to an integer, the convention of Python round. -/
def round_half_even (x : Rat) : Int :=
  let f := rat_floor x
  let r := x - f
  if r < 1/2 then f
  else if 1/2 < r then f + 1
  else if f % 2 = 0 then f else f + 1

/-- Python round(x, 1): round to one decimal place. -/
def py_round_1 (x : Rat) : Rat := ((round_half_even (x * 10) : Int) : Rat) / 10

/-! ## Period aligner -/

/-- Embeds reset_date_range (source lines 84-95).  The monthly branch
floors the start to day 1 and ceils the end to the last day of its
month; every other mode takes the trailing seven days ending today. -/
def reset_date_range (start_date end_date : PyDate) (view_mode : String)
    (today : PyDate) : PyDate × PyDate :=
  if view_mode = modeMonthly then
    (⟨start_date.year, start_date.month, 1⟩,
     ⟨end_date.year, end_date.month, daysInMonth end_date.year end_date.month⟩)
  else
    (subDays today 6, today)

/-- Embeds the previous-period derivation (source lines 146-149) with
dates written as their day ordinals: Python date plus-minus timedelta
arithmetic is exactly integer arithmetic on toordinal values, so
period_length s e is (end - start).days + 1 of the source. -/
def period_length (s e : Int) : Int := e - s + 1

/-- The previous comparison window (prev_start_date, prev_end_date) of
source lines 148-149, on day ordinals. -/
def prev_period (s e : Int) : Int × Int :=
  (s - 1 - (period_length s e - 1), s - 1)

/-! ## Data model

Rooms and venues share one record shape (an identifier and a status
flag); room and venue reservations likewise share one shape, with the
joined capacity unit inlined so the join-based status filter of the
queries is a field access. -/

structure UnitRec where
  unit_id : Nat
  status : String
deriving DecidableEq

structure ReservationRec where
  unit : UnitRec
  date_start : PyDate
  date_end : PyDate
deriving DecidableEq

structure Database where
  rooms : List UnitRec
  venues : List UnitRec
  roomReservations : List ReservationRec
  venueReservations : List ReservationRec
deriving DecidableEq

/-! ## Aggregator queries -/

/-- Embeds get_date_range_filter (source lines 45-50): the date column
value lies between start and end inclusive. -/
def get_date_range_filter (s e d : PyDate) : Bool :=
  dateLe s d && dateLe d e

/-- Embeds the reservation queries of source lines 121-133 (and their
previous-period twins at lines 152-164): reservations whose joined unit
is ready and whose booking START date lies inside the window.  The same
predicate also underlies the occupied counts of get_available_spaces
(source lines 64-80). -/
def reservations_query (rs : List ReservationRec) (s e : PyDate) :
    List ReservationRec :=
  rs.filter (fun r =>
    r.unit.status == statusReady && get_date_range_filter s e r.date_start)

/-- Embeds current_bookings (source line 136): room rows plus venue
rows returned by the two window queries. -/
def current_bookings (db : Database) (s e : PyDate) : Nat :=
  (reservations_query db.roomReservations s e).length
    + (reservations_query db.venueReservations s e).length

/-- The inclusive interval-overlap test of the monthly occupancy bucket
query (source lines 201-202): row start at most window end, and row end
at least window start. -/
def overlap_filter (ws we : PyDate) (r : ReservationRec) : Bool :=
  dateLe r.date_start we && dateLe ws r.date_end

/-- Embeds the monthly occupancy bucket query (source lines 193-204):
ready rooms whose reservation interval overlaps the month of the given
series date. -/
def monthly_occupied_count (rs : List ReservationRec) (d : PyDate) : Nat :=
  let mr := get_month_range d
  (rs.filter (fun r =>
    r.unit.status == statusReady && dateLe r.date_start mr.2
      && dateLe mr.1 r.date_end)).length

/-- Count of units in ready status (source lines 55-61). -/
def count_ready (us : List UnitRec) : Nat :=
  (us.filter (fun u => u.status == statusReady)).length

/-- Embeds get_available_spaces (source lines 52-82): ready rooms minus
room-reservation rows with a ready room and start date in the window,
plus the same difference for venues.  The result is an integer because
each difference may go negative. -/
def get_available_spaces (db : Database) (s e : PyDate) : Int :=
  ((count_ready db.rooms : Int)
      - (reservations_query db.roomReservations s e).length)
    + ((count_ready db.venues : Int)
      - (reservations_query db.venueReservations s e).length)

/-- Second definition, following the words of the specification rather
than the source, for comparison with get_available_spaces: total ready
units minus the number of DISTINCT ready units having a reservation
whose interval OVERLAPS the window. -/
def spec_available_spaces (db : Database) (s e : PyDate) : Int :=
  let occ_rooms := (db.rooms.filter (fun u => u.status == statusReady
      && db.roomReservations.any (fun r =>
          r.unit == u && overlap_filter s e r))).length
  let occ_venues := (db.venues.filter (fun u => u.status == statusReady
      && db.venueReservations.any (fun r =>
          r.unit == u && overlap_filter s e r))).length
  ((count_ready db.rooms + count_ready db.venues : Nat) : Int)
    - ((occ_rooms + occ_venues : Nat) : Int)

/-! ## Response data -/

structure DashboardData where
  totalBookings : Nat
  totalBookingsChange : Rat
  totalBookingsPeriod : String
  totalRevenue : Rat
  totalRevenueChange : Rat
  totalRevenuePeriod : String
  occupancyData : List (String × Nat)
  revenueData : List (String × Rat)
  roomTypePerformance : List (String × Nat × Rat)
  visitorData : List (String × Nat)
  visitorTrending : Rat
  availableSpaces : Int
  availableSpacesChange : Rat
  totalGuests : Nat
  totalGuestsChange : Rat
deriving DecidableEq

/-- Embeds the dashboard_data assembly (source lines 136, 166,
286-299 and 321-337) from the four filtered reservation lists and the
remaining already-aggregated scalars and series. -/
def build_dashboard
    (room_reservations venue_reservations
      prev_room_reservations prev_venue_reservations : List ReservationRec)
    (current_revenue prev_revenue : Rat)
    (current_available_spaces prev_available_spaces : Int)
    (total_guests prev_total_guests : Nat)
    (view_mode : String)
    (occupancy_data : List (String × Nat))
    (revenue_data : List (String × Rat))
    (room_type_data : List (String × Nat × Rat)) : DashboardData :=
  let current_bookings := room_reservations.length + venue_reservations.length
  let prev_bookings :=
    prev_room_reservations.length + prev_venue_reservations.length
  let visitor_data :=
    [(nameRoomGuests, room_reservations.length),
     (nameVenueVisitors, venue_reservations.length)]
  let total_visitors := room_reservations.length + venue_reservations.length
  let prev_total_visitors :=
    prev_room_reservations.length + prev_venue_reservations.length
  let visitor_trending :=
    calculate_percentage_change (total_visitors : Rat) (prev_total_visitors : Rat)
  ⟨current_bookings,
   py_round_1 (calculate_percentage_change (current_bookings : Rat)
     (prev_bookings : Rat)),
   if view_mode = modeMonthly then periodMonth else periodWeek,
   current_revenue,
   py_round_1 (calculate_percentage_change current_revenue prev_revenue),
   if view_mode = modeMonthly then periodMonth else periodWeek,
   occupancy_data,
   revenue_data,
   room_type_data,
   visitor_data,
   py_round_1 visitor_trending,
   current_available_spaces,
   py_round_1 (calculate_percentage_change (current_available_spaces : Rat)
     (prev_available_spaces : Rat)),
   total_guests,
   py_round_1 (calculate_percentage_change (total_guests : Rat)
     (prev_total_guests : Rat))⟩

/-- The dashboard assembled from empty reservation lists and zero
scalars: the structured output of a window containing no data. -/
def zero_dashboard : DashboardData :=
  build_dashboard [] [] [] [] 0 0 0 0 0 0 modeMonthly [] [] []

/-- Total visitors as summed by export_pdf (source lines 600 and 666):
the sum of the visitors fields of visitorData. -/
def visitor_total (d : DashboardData) : Nat :=
  (d.visitorData.map Prod.snd).sum

/-! ## HTTP surface -/

inductive HttpResponse where
  | okJson : DashboardData → HttpResponse
  | okFile : String → HttpResponse
  | error : Nat → String → HttpResponse
deriving DecidableEq

structure Request where
  startDate : Option String
  endDate : Option String
  viewMode : Option String
  exportFmt : Option String
deriving DecidableEq

/-- Embeds export_excel (source lines 354-434): the spreadsheet
renderer is a collaborator, so its success is a parameter; a fault is
caught and turned into the fixed 500 body of line 434. -/
def export_excel (render_ok : Bool) (_d : DashboardData) : HttpResponse :=
  if render_ok then HttpResponse.okFile ctXlsx
  else HttpResponse.error 500 msgExcelFail

/-- Embeds export_pdf (source lines 436-684).  Chart rendering is a
collaborator (render_ok); independent of it, the conclusion paragraph
at line 666 divides visitorData entries by the sum of all visitors,
which raises ZeroDivisionError whenever that sum is zero; the except
clause at lines 682-684 converts any such fault into the fixed 500
body. -/
def export_pdf (render_ok : Bool) (d : DashboardData) : HttpResponse :=
  if render_ok && !(visitor_total d == 0) then HttpResponse.okFile ctPdf
  else HttpResponse.error 500 msgPdfFail

/-- Embeds the date parsing with defaults of source lines 106-110: the
end date falls back to today, the start date to six days before the
end; a string either parses (strptime succeeds) or the whole step
fails, yielding the 400 of line 110. -/
def parsed_dates (parse : String → Option PyDate) (today : PyDate)
    (req : Request) : Option (PyDate × PyDate) :=
  match req.endDate with
  | Option.some s =>
      match parse s with
      | Option.none => Option.none
      | Option.some e =>
          match req.startDate with
          | Option.some s2 =>
              match parse s2 with
              | Option.none => Option.none
              | Option.some st => Option.some (st, e)
          | Option.none => Option.some (subDays e 6, e)
  | Option.none =>
      match req.startDate with
      | Option.some s2 =>
          match parse s2 with
          | Option.none => Option.none
          | Option.some st => Option.some (st, today)
      | Option.none => Option.some (subDays today 6, today)

/-- Embeds the control flow of get_dashboard_data (source lines
97-352).  Date parsing, the ISO-date parser itself, the clock, the
metric aggregation (lines 120-337, settled piecewise by the query
embeddings above) and the two renderers enter as parameters; a
collaborator fault is an Except error and reaches the caller only as
the fixed 500 body of line 352 (or the renderer-local 500 bodies). -/
def get_dashboard_data (parse : String → Option PyDate) (today : PyDate)
    (compute : PyDate → PyDate → String → Except Unit DashboardData)
    (excel_ok pdf_render_ok : Bool) (req : Request) : HttpResponse :=
  let view_mode := req.viewMode.getD modeMonthly
  match parsed_dates parse today req with
  | Option.none => HttpResponse.error 400 msgBadDate
  | Option.some sd =>
      if dateLt sd.2 sd.1 then HttpResponse.error 400 msgInverted
      else
        let r := reset_date_range sd.1 sd.2 view_mode today
        match compute r.1 r.2 view_mode with
        | Except.error _ => HttpResponse.error 500 msgInternal
        | Except.ok dd =>
            match req.exportFmt with
            | Option.none => HttpResponse.okJson dd
            | Option.some f =>
                if f = emptyStr then HttpResponse.okJson dd
                else if f = fmtExcel then export_excel excel_ok dd
                else if f = fmtPdf then export_pdf pdf_render_ok dd
                else HttpResponse.error 400 msgBadExport

/-! ## Fault-kind vocabulary -/

def invalid_msgs : List String := [msgBadDate, msgInverted, msgBadExport]

def internal_msgs : List String := [msgInternal, msgExcelFail, msgPdfFail]

/-- Some supplied date string fails to parse as an ISO calendar date. -/
def invalid_date_input (parse : String → Option PyDate) (req : Request) : Prop :=
  (∃ s, req.endDate = Option.some s ∧ parse s = Option.none)
    ∨ (∃ s, req.startDate = Option.some s ∧ parse s = Option.none)

/-- The parsed window is inverted: start strictly after end. -/
def inverted_range (parse : String → Option PyDate) (today : PyDate)
    (req : Request) : Prop :=
  ∃ p, parsed_dates parse today req = Option.some p ∧ dateLt p.2 p.1 = true

/-- The export parameter is present, non-empty and names no supported
format. -/
def unsupported_export (req : Request) : Prop :=
  ∃ f, req.exportFmt = Option.some f
    ∧ f ≠ emptyStr ∧ f ≠ fmtExcel ∧ f ≠ fmtPdf

/-! ## Dynamically typed view of the delta calculator

calculate_percentage_change is called on whatever the ORM returns, so
its fault behaviour is about Python dynamic typing: values are modelled
as integers, exact rationals (standing for floats and decimals),
strings or None, and each arithmetic primitive returns the exception
Python raises on that combination of operand kinds.  Float values are
kept exact, but the one fault of float arithmetic that REACHES the
exception system is modelled: coercing an integer to binary64 (during
mixed arithmetic or int/int true division) raises OverflowError when
the exact value is at least 2 to the 1024 minus 2 to the 970, the
smallest magnitude that rounds to infinity; float-by-float operations
overflow silently to infinity and raise nothing. -/

inductive PyVal where
  | vint : Int → PyVal
  | vrat : Rat → PyVal
  | vstr : String → PyVal
  | vnone : PyVal
deriving DecidableEq

inductive PyExc where
  | typeErr : PyExc
  | zeroDivErr : PyExc
  | overflowErr : PyExc
  | otherErr : PyExc
deriving DecidableEq

/-- The smallest magnitude that rounds to infinity in IEEE binary64:
2 to the 1024 minus 2 to the 970.  Converting an integer at or beyond
this bound to float, or an int/int true division whose exact quotient
reaches it, raises OverflowError in Python. -/
def floatOverflowBound : Rat := 2 ^ 1024 - 2 ^ 970

/-- Python x == 0 on these values: numeric zero compares true, any
non-numeric value compares false without raising. -/
def py_eq_zero : PyVal → Bool
  | PyVal.vint n => decide (n = 0)
  | PyVal.vrat q => decide (q = 0)
  | _ => false

/-- Python x > 0: ordering a non-number against an int raises
TypeError. -/
def py_gt_zero : PyVal → Except PyExc Bool
  | PyVal.vint n => Except.ok (decide (0 < n))
  | PyVal.vrat q => Except.ok (decide (0 < q))
  | _ => Except.error PyExc.typeErr

/-- Python subtraction: int minus int is exact, mixed int and float
first coerces the int to binary64 (OverflowError beyond the bound),
float minus float never raises; any non-number is a TypeError. -/
def py_sub : PyVal → PyVal → Except PyExc PyVal
  | PyVal.vint m, PyVal.vint n => Except.ok (PyVal.vint (m - n))
  | PyVal.vint m, PyVal.vrat q =>
      if floatOverflowBound ≤ |(m : Rat)| then Except.error PyExc.overflowErr
      else Except.ok (PyVal.vrat ((m : Rat) - q))
  | PyVal.vrat p, PyVal.vint n =>
      if floatOverflowBound ≤ |(n : Rat)| then Except.error PyExc.overflowErr
      else Except.ok (PyVal.vrat (p - (n : Rat)))
  | PyVal.vrat p, PyVal.vrat q => Except.ok (PyVal.vrat (p - q))
  | _, _ => Except.error PyExc.typeErr

/-- Python abs: defined on numbers, TypeError otherwise. -/
def py_abs : PyVal → Except PyExc PyVal
  | PyVal.vint n => Except.ok (PyVal.vint (abs n))
  | PyVal.vrat q => Except.ok (PyVal.vrat (abs q))
  | _ => Except.error PyExc.typeErr

/-- Python true division.  int/int checks the divisor first
(ZeroDivisionError) and then produces a correctly rounded binary64,
raising OverflowError when the exact quotient reaches the overflow
bound; a mixed operand coerces its int side first (OverflowError
beyond the bound) and then divides as floats (ZeroDivisionError on a
zero divisor, silent infinity otherwise); non-numbers are a
TypeError. -/
def py_div : PyVal → PyVal → Except PyExc PyVal
  | PyVal.vint x, PyVal.vint y =>
      if y = 0 then Except.error PyExc.zeroDivErr
      else if floatOverflowBound ≤ |(x : Rat) / (y : Rat)| then
        Except.error PyExc.overflowErr
      else Except.ok (PyVal.vrat ((x : Rat) / (y : Rat)))
  | PyVal.vint x, PyVal.vrat q =>
      if floatOverflowBound ≤ |(x : Rat)| then Except.error PyExc.overflowErr
      else if q = 0 then Except.error PyExc.zeroDivErr
      else Except.ok (PyVal.vrat ((x : Rat) / q))
  | PyVal.vrat p, PyVal.vint y =>
      if floatOverflowBound ≤ |(y : Rat)| then Except.error PyExc.overflowErr
      else if y = 0 then Except.error PyExc.zeroDivErr
      else Except.ok (PyVal.vrat (p / (y : Rat)))
  | PyVal.vrat p, PyVal.vrat q =>
      if q = 0 then Except.error PyExc.zeroDivErr
      else Except.ok (PyVal.vrat (p / q))
  | _, _ => Except.error PyExc.typeErr

/-- Python multiplication on the operands reaching line 41: int times
int is exact, a mixed operand coerces its int side to binary64
(OverflowError beyond the bound), float times float never raises. -/
def py_mul : PyVal → PyVal → Except PyExc PyVal
  | PyVal.vint m, PyVal.vint n => Except.ok (PyVal.vint (m * n))
  | PyVal.vint m, PyVal.vrat q =>
      if floatOverflowBound ≤ |(m : Rat)| then Except.error PyExc.overflowErr
      else Except.ok (PyVal.vrat ((m : Rat) * q))
  | PyVal.vrat p, PyVal.vint n =>
      if floatOverflowBound ≤ |(n : Rat)| then Except.error PyExc.overflowErr
      else Except.ok (PyVal.vrat (p * (n : Rat)))
  | PyVal.vrat p, PyVal.vrat q => Except.ok (PyVal.vrat (p * q))
  | _, _ => Except.error PyExc.typeErr

/-- The body of the try block of calculate_percentage_change (source
lines 39-41), with operations evaluated in Python order: the zero test
on previous, then current > 0, or else subtraction, abs, division and
the final multiplication by 100. -/
def pct_raw (current previous : PyVal) : Except PyExc PyVal :=
  if py_eq_zero previous then
    match py_gt_zero current with
    | Except.error e => Except.error e
    | Except.ok b =>
        Except.ok (if b then PyVal.vint 100 else PyVal.vint 0)
  else
    match py_sub current previous with
    | Except.error e => Except.error e
    | Except.ok d =>
        match py_abs previous with
        | Except.error e => Except.error e
        | Except.ok a =>
            match py_div d a with
            | Except.error e => Except.error e
            | Except.ok q => py_mul q (PyVal.vint 100)

/-- Embeds calculate_percentage_change (source lines 36-43) on dynamic
values: the except clause at line 42 catches TypeError and
ZeroDivisionError and returns 0; any other exception kind would
propagate to the caller. -/
def calculate_percentage_change_py (current previous : PyVal) :
    Except PyExc PyVal :=
  match pct_raw current previous with
  | Except.ok v => Except.ok v
  | Except.error PyExc.typeErr => Except.ok (PyVal.vint 0)
  | Except.error PyExc.zeroDivErr => Except.ok (PyVal.vint 0)
  | Except.error e => Except.error e

/-! ## Concrete sample data -/

def today0 : PyDate := ⟨2024, 6, 10⟩

/-- A parser that rejects every string. -/
def parse0 : String → Option PyDate := fun _ => Option.none

/-- A parser that accepts every string as a fixed March date. -/
def parseAny : String → Option PyDate := fun _ => Option.some ⟨2024, 3, 15⟩

/-- A metrics computation that always succeeds with the zero
dashboard. -/
def compute0 : PyDate → PyDate → String → Except Unit DashboardData :=
  fun _ _ _ => Except.ok zero_dashboard

/-- A reservation of a ready room spanning 2024-01-30 to 2024-02-02. -/
def resJanFeb : ReservationRec := ⟨⟨1, statusReady⟩, ⟨2024, 1, 30⟩, ⟨2024, 2, 2⟩⟩

/-- One ready room whose only reservation is resJanFeb. -/
def dbJanFeb : Database := ⟨[⟨1, statusReady⟩], [], [resJanFeb], []⟩

/-- One ready room carrying two reservations that both start inside
February 2024. -/
def dbDouble : Database :=
  ⟨[⟨1, statusReady⟩], [],
   [⟨⟨1, statusReady⟩, ⟨2024, 2, 5⟩, ⟨2024, 2, 6⟩⟩,
    ⟨⟨1, statusReady⟩, ⟨2024, 2, 10⟩, ⟨2024, 2, 12⟩⟩], []⟩

/-- A request whose only parameter is an unparsable end date. -/
def reqBadDate : Request :=
  ⟨Option.none, Option.some strNotADate, Option.none, Option.none⟩

/-- A request in daily view mode with no explicit dates. -/
def reqDaily : Request :=
  ⟨Option.none, Option.none, Option.some modeDaily, Option.none⟩

/-- A request for an xml export with no other parameters. -/
def reqXml : Request :=
  ⟨Option.none, Option.none, Option.none, Option.some fmtXml⟩

/-! ## C1: the delta calculator on numbers -/

/-- C1: for numeric inputs, calculate_percentage_change returns 100
when previous is zero and current is positive, 0 when previous is zero
and current is not positive, and ((current - previous) / ABS previous)
times 100 otherwise; in particular it maps (0,0) to 0, any positive x
with previous 0 to 100, (100,50) to 100 and (50,100) to -50. -/
theorem c1_pct_change :
    (calculate_percentage_change 0 0 = 0)
    ∧ (∀ x : Rat, 0 < x → calculate_percentage_change x 0 = 100)
    ∧ (∀ c : Rat, ¬ 0 < c → calculate_percentage_change c 0 = 0)
    ∧ (calculate_percentage_change 100 50 = 100)
    ∧ (calculate_percentage_change 50 100 = -50)
    ∧ (∀ c p : Rat, p ≠ 0 →
        calculate_percentage_change c p = ((c - p) / abs p) * 100) := by
  refine ⟨by norm_num [calculate_percentage_change], ?_, ?_, ?_, ?_, ?_⟩
  · intro x hx
    simp [calculate_percentage_change, hx]
  · intro c hc
    simp [calculate_percentage_change, hc]
  · norm_num [calculate_percentage_change, abs]
  · norm_num [calculate_percentage_change, abs]
  · intro c p hp
    simp [calculate_percentage_change, hp]

/-- Witness for C1 at concrete inputs: 3 is positive and the change
from previous 0 to current 3 is reported as 100. -/
theorem c1_pct_change_witness :
    (0 : Rat) < 3 ∧ calculate_percentage_change 3 0 = 100 :=
  ⟨by norm_num, c1_pct_change.2.1 3 (by norm_num)⟩

/-! ## C2: the derived previous period -/

/-- C2: for every window with start at most end (as day ordinals), the
derived previous period has end equal to start minus one day, the same
length as the current window, a well-ordered pair, and is disjoint from
the current window. -/
theorem c2_prev_period (s e : Int) (h : s ≤ e) :
    ((prev_period s e).2 - (prev_period s e).1 + 1 = period_length s e)
    ∧ ((prev_period s e).2 = s - 1)
    ∧ ((prev_period s e).1 ≤ (prev_period s e).2)
    ∧ (∀ d : Int, (prev_period s e).1 ≤ d → d ≤ (prev_period s e).2 →
        ¬(s ≤ d ∧ d ≤ e)) := by
  refine ⟨?_, ?_, ?_, ?_⟩
  · simp only [prev_period, period_length]; ring
  · simp [prev_period]
  · simp only [prev_period, period_length]; omega
  · intro d h1 h2 hc
    simp only [prev_period, period_length] at h1 h2
    omega

/-- Witness for C2 at the window 10..20: the previous period is 0..9,
of the same length 11, ending the day before the window starts. -/
theorem c2_prev_period_witness :
    (10 : Int) ≤ 20 ∧ (prev_period 10 20).2 = 10 - 1 :=
  ⟨by norm_num, (c2_prev_period 10 20 (by norm_num)).2.1⟩

/-! ## C3: monthly alignment -/

/-- C3: in monthly mode the aligner floors the start to the first day
of its month and ceils the end to the last day of its month, so the
aligned window contains the requested one; the month table follows the
Gregorian leap rule, and the example window 2024-02-15..2024-02-20
aligns to 2024-02-01..2024-02-29. -/
theorem c3_monthly_alignment :
    (∀ s e t, valid_date s → valid_date e →
      reset_date_range s e modeMonthly t =
          (⟨s.year, s.month, 1⟩, ⟨e.year, e.month, daysInMonth e.year e.month⟩)
        ∧ dateLe ⟨s.year, s.month, 1⟩ s = true
        ∧ dateLe e ⟨e.year, e.month, daysInMonth e.year e.month⟩ = true)
    ∧ (∀ t, reset_date_range ⟨2024, 2, 15⟩ ⟨2024, 2, 20⟩ modeMonthly t =
        (⟨2024, 2, 1⟩, ⟨2024, 2, 29⟩))
    ∧ daysInMonth 2024 2 = 29 ∧ daysInMonth 2023 2 = 28
    ∧ daysInMonth 1900 2 = 28 ∧ daysInMonth 2000 2 = 29 := by
  refine ⟨?_, ?_, by decide, by decide, by decide, by decide⟩
  · intro s e t hs he
    refine ⟨by simp [reset_date_range], ?_, ?_⟩
    · have h1 : 1 ≤ s.day := hs.2.2.1
      simp [dateLe]
      omega
    · have h2 : e.day ≤ daysInMonth e.year e.month := he.2.2.2
      simp [dateLe]
      omega
  · intro t
    simp only [reset_date_range, if_pos]
    decide

/-- Witness for C3 at the valid dates 2024-07-31 and 2024-09-05: the
aligned window is 2024-07-01 through 2024-09-30. -/
theorem c3_monthly_alignment_witness :
    valid_date ⟨2024, 7, 31⟩ ∧ valid_date ⟨2024, 9, 5⟩
    ∧ (reset_date_range ⟨2024, 7, 31⟩ ⟨2024, 9, 5⟩ modeMonthly today0 =
          (⟨2024, 7, 1⟩, ⟨2024, 9, 30⟩)
        ∧ dateLe ⟨2024, 7, 1⟩ ⟨2024, 7, 31⟩ = true
        ∧ dateLe ⟨2024, 9, 5⟩ ⟨2024, 9, 30⟩ = true) :=
  ⟨by decide, by decide,
   c3_monthly_alignment.1 ⟨2024, 7, 31⟩ ⟨2024, 9, 5⟩ today0 (by decide) (by decide)⟩

/-! ## C4: daily mode forces the trailing week -/

/-- C4: in daily view mode the aligner discards whatever dates the
caller supplied and returns the window from six days before today
through today; with today fixed at 2024-06-10 that window is
2024-06-04 through 2024-06-10, which spans seven days inclusive, and
the handler then computes all metrics over exactly that window. -/
theorem c4_daily_window :
    (∀ s e t, reset_date_range s e modeDaily t = (subDays t 6, t))
    ∧ (∀ s e, reset_date_range s e modeDaily today0 = (⟨2024, 6, 4⟩, today0))
    ∧ (toOrdinal today0 + 1 - toOrdinal ⟨2024, 6, 4⟩ = 7)
    ∧ (∀ parse compute eok pok req s0 e0 t,
        req.viewMode = Option.some modeDaily →
        req.exportFmt = Option.none →
        parsed_dates parse t req = Option.some (s0, e0) →
        dateLt e0 s0 = false →
        get_dashboard_data parse t compute eok pok req =
          (match compute (subDays t 6) t modeDaily with
           | Except.ok dd => HttpResponse.okJson dd
           | Except.error _ => HttpResponse.error 500 msgInternal)) := by
  refine ⟨?_, ?_, by decide, ?_⟩
  · intro s e t
    simp [reset_date_range, modeDaily, modeMonthly]
  · intro s e
    have h : reset_date_range s e modeDaily today0 = (subDays today0 6, today0) := by
      simp [reset_date_range, modeDaily, modeMonthly]
    rw [h]
    decide
  · intro parse compute eok pok req s0 e0 t hvm hexp hpd hlt
    simp only [get_dashboard_data, hvm, hpd, Option.getD_some, hlt,
      Bool.false_eq_true, if_false]
    have h : reset_date_range s0 e0 modeDaily t = (subDays t 6, t) := by
      simp [reset_date_range, modeDaily, modeMonthly]
    rw [h]
    cases hc : compute (subDays t 6) t modeDaily with
    | error u => simp
    | ok dd => simp [hexp]

/-- Witness for C4: a daily-mode request with no explicit dates, a
parser that would accept anything, and a fixed today of 2024-06-10
yields the dashboard computed over the trailing week. -/
theorem c4_daily_window_witness :
    reqDaily.viewMode = Option.some modeDaily
    ∧ get_dashboard_data parseAny today0 compute0 true true reqDaily =
        (match compute0 (subDays today0 6) today0 modeDaily with
         | Except.ok dd => HttpResponse.okJson dd
         | Except.error _ => HttpResponse.error 500 msgInternal) :=
  ⟨rfl, c4_daily_window.2.2.2 parseAny compute0 true true reqDaily
      (subDays today0 6) today0 today0 rfl rfl rfl (by decide)⟩

/-! ## C5: which reservations a window counts -/

/-- Counterexample to C5 as stated: the reservation spanning 2024-01-30
to 2024-02-02 overlaps the February 2024 window under the inclusive
overlap test, yet the booking totals over that window count zero
reservations, because the totals query filters on the reservation START
date alone. -/
theorem c5_counterexample :
    overlap_filter ⟨2024, 2, 1⟩ ⟨2024, 2, 29⟩ resJanFeb = true
    ∧ current_bookings dbJanFeb ⟨2024, 2, 1⟩ ⟨2024, 2, 29⟩ = 0 := by
  decide

/-- C5 as amended: a reservation is counted toward a window's booking
totals exactly when its unit is ready and its START date lies inside
the window; the inclusive overlap test governs the monthly occupancy
buckets instead, where the reservation spanning 2024-01-30 to
2024-02-02 is counted in both the January and the February bucket. -/
theorem c5_amended_counting :
    (∀ (rs : List ReservationRec) (s e : PyDate) (r : ReservationRec),
      r ∈ reservations_query rs s e ↔
        (r ∈ rs ∧ r.unit.status = statusReady
          ∧ dateLe s r.date_start = true ∧ dateLe r.date_start e = true))
    ∧ (∀ (rs : List ReservationRec) (d : PyDate),
      monthly_occupied_count rs d =
        (rs.filter (fun r => r.unit.status == statusReady
          && overlap_filter (get_month_range d).1 (get_month_range d).2 r)).length)
    ∧ monthly_occupied_count [resJanFeb] ⟨2024, 1, 15⟩ = 1
    ∧ monthly_occupied_count [resJanFeb] ⟨2024, 2, 15⟩ = 1 := by
  refine ⟨?_, ?_, by decide, by decide⟩
  · intro rs s e r
    simp [reservations_query, get_date_range_filter, List.mem_filter, and_assoc]
  · intro rs d
    simp only [monthly_occupied_count, overlap_filter, Bool.and_assoc]

/-! ## C6: available capacity -/

/-- Counterexample to C6 as stated: over the February 2024 window, a
single ready room whose only reservation spans 2024-01-30 to 2024-02-02
is reported as available (code result 1) although the spec formula
counts it occupied (result 0); and a single ready room with two
reservations starting inside the window is reported as -1 available
because reservation rows, not distinct units, are subtracted. -/
theorem c6_counterexample :
    (get_available_spaces dbJanFeb ⟨2024, 2, 1⟩ ⟨2024, 2, 29⟩ = 1
      ∧ spec_available_spaces dbJanFeb ⟨2024, 2, 1⟩ ⟨2024, 2, 29⟩ = 0)
    ∧ (get_available_spaces dbDouble ⟨2024, 2, 1⟩ ⟨2024, 2, 29⟩ = -1
      ∧ spec_available_spaces dbDouble ⟨2024, 2, 1⟩ ⟨2024, 2, 29⟩ = 0) := by
  decide

/-- C6 as amended: the reported available capacity equals the number of
ready rooms and venues minus the number of reservation ROWS whose unit
is ready and whose booking START date lies inside the window; in
particular it never exceeds the ready-unit total (but can be
negative). -/
theorem c6_amended_available :
    ∀ (db : Database) (s e : PyDate),
      get_available_spaces db s e =
          ((count_ready db.rooms + count_ready db.venues : Nat) : Int)
            - (((reservations_query db.roomReservations s e).length
                + (reservations_query db.venueReservations s e).length : Nat) : Int)
        ∧ get_available_spaces db s e ≤
            ((count_ready db.rooms + count_ready db.venues : Nat) : Int) := by
  intro db s e
  constructor
  · simp only [get_available_spaces]
    push_cast
    ring
  · simp only [get_available_spaces]
    push_cast
    omega

/-! ## C7: export dispatch and the empty-window document -/

/-- C7 evaluated on the code: an xml export is rejected with the 400
body, as claimed; but a pdf export over a window with zero reservations
does NOT succeed: the visitor total of the zero dashboard is 0, the
conclusion-paragraph division by that total raises, and the caller
receives the 500 body instead of a document. -/
theorem c7_export_paths :
    get_dashboard_data parse0 today0 compute0 true true reqXml =
        HttpResponse.error 400 msgBadExport
    ∧ visitor_total zero_dashboard = 0
    ∧ export_pdf true zero_dashboard = HttpResponse.error 500 msgPdfFail := by
  refine ⟨by decide, by decide, by decide⟩

/-! ## C8: the two user-visible fault kinds -/

/-- A failed date-parsing step always traces back to a supplied string
the parser rejected. -/
theorem parsed_dates_none (parse : String → Option PyDate) (today : PyDate)
    (req : Request) (h : parsed_dates parse today req = Option.none) :
    invalid_date_input parse req := by
  unfold parsed_dates at h
  split at h
  next s heq =>
    split at h
    next hp => exact Or.inl ⟨s, heq, hp⟩
    next e hp =>
      split at h
      next s2 hs =>
        split at h
        next hp2 => exact Or.inr ⟨s2, hs, hp2⟩
        next st hp2 => simp at h
      next hs => simp at h
  next heq =>
    split at h
    next s2 hs =>
      split at h
      next hp2 => exact Or.inr ⟨s2, hs, hp2⟩
      next st hp2 => simp at h
    next hs => simp at h

/-- C8: every error the endpoint returns is either a 400 whose body is
one of the three invalid-input messages, arising only from an
unparsable date, an inverted range or an unsupported export value, or
a 500 whose body is one of the three fixed generic messages, which name
no detail of the underlying fault. -/
theorem c8_fault_classification
    (parse : String → Option PyDate) (today : PyDate)
    (compute : PyDate → PyDate → String → Except Unit DashboardData)
    (eok pok : Bool) (req : Request) (c : Nat) (m : String)
    (h : get_dashboard_data parse today compute eok pok req =
          HttpResponse.error c m) :
    (c = 400 ∧ m ∈ invalid_msgs
      ∧ (invalid_date_input parse req ∨ inverted_range parse today req
          ∨ unsupported_export req))
    ∨ (c = 500 ∧ m ∈ internal_msgs) := by
  simp only [get_dashboard_data] at h
  split at h
  next heq =>
    injection h with h1 h2
    subst h1
    subst h2
    exact Or.inl ⟨rfl, by simp [invalid_msgs],
      Or.inl (parsed_dates_none parse today req heq)⟩
  next sd heq =>
    split at h
    next hlt =>
      injection h with h1 h2
      subst h1
      subst h2
      exact Or.inl ⟨rfl, by simp [invalid_msgs],
        Or.inr (Or.inl ⟨sd, heq, hlt⟩)⟩
    next hlt =>
      split at h
      next u hcc =>
        injection h with h1 h2
        subst h1
        subst h2
        exact Or.inr ⟨rfl, by simp [internal_msgs]⟩
      next dd hcc =>
        split at h
        next hex => simp at h
        next f hex =>
          split at h
          next hf => simp at h
          next hf =>
            split at h
            next hf2 =>
              unfold export_excel at h
              split at h
              next => simp at h
              next =>
                injection h with h1 h2
                subst h1
                subst h2
                exact Or.inr ⟨rfl, by simp [internal_msgs]⟩
            next hf2 =>
              split at h
              next hf3 =>
                unfold export_pdf at h
                split at h
                next => simp at h
                next =>
                  injection h with h1 h2
                  subst h1
                  subst h2
                  exact Or.inr ⟨rfl, by simp [internal_msgs]⟩
              next hf3 =>
                injection h with h1 h2
                subst h1
                subst h2
                exact Or.inl ⟨rfl, by simp [invalid_msgs],
                  Or.inr (Or.inr ⟨f, hex, hf, hf2, hf3⟩)⟩

/-- Witness for C8: a request whose end date does not parse yields the
400 invalid-date fault, classified as an invalid-input response. -/
theorem c8_fault_classification_witness :
    (400 = 400 ∧ msgBadDate ∈ invalid_msgs
      ∧ (invalid_date_input parse0 reqBadDate
          ∨ inverted_range parse0 today0 reqBadDate
          ∨ unsupported_export reqBadDate))
    ∨ (400 = 500 ∧ msgBadDate ∈ internal_msgs) :=
  c8_fault_classification parse0 today0 compute0 true true reqBadDate
    400 msgBadDate rfl

/-! ## C9: fault behaviour of the delta calculator -/

/-- The comparison step never raises anything but TypeError. -/
theorem py_gt_zero_not_other (v : PyVal) :
    py_gt_zero v ≠ Except.error PyExc.otherErr := by
  cases v <;> simp [py_gt_zero]

/-- Subtraction raises only TypeError or OverflowError. -/
theorem py_sub_not_other (a b : PyVal) :
    py_sub a b ≠ Except.error PyExc.otherErr := by
  cases a <;> cases b <;> simp only [py_sub] <;>
    first
      | (split_ifs <;> simp)
      | simp

/-- abs raises only TypeError. -/
theorem py_abs_not_other (v : PyVal) :
    py_abs v ≠ Except.error PyExc.otherErr := by
  cases v <;> simp [py_abs]

/-- True division raises only TypeError, ZeroDivisionError or
OverflowError. -/
theorem py_div_not_other (a b : PyVal) :
    py_div a b ≠ Except.error PyExc.otherErr := by
  cases a <;> cases b <;> simp only [py_div] <;>
    first
      | (split_ifs <;> simp)
      | simp

/-- Multiplication raises only TypeError or OverflowError. -/
theorem py_mul_not_other (a b : PyVal) :
    py_mul a b ≠ Except.error PyExc.otherErr := by
  cases a <;> cases b <;> simp only [py_mul] <;>
    first
      | (split_ifs <;> simp)
      | simp

/-- Every exception the body of calculate_percentage_change can raise
on these values is a TypeError, a ZeroDivisionError or an
OverflowError. -/
theorem pct_raw_not_other (c p : PyVal) :
    pct_raw c p ≠ Except.error PyExc.otherErr := by
  unfold pct_raw
  split
  · cases hg : py_gt_zero c with
    | ok b => simp
    | error e =>
        have h := py_gt_zero_not_other c
        rw [hg] at h
        simpa using h
  · cases hs : py_sub c p with
    | error e =>
        have h := py_sub_not_other c p
        rw [hs] at h
        simpa using h
    | ok d =>
        show (match py_abs p with
              | Except.error e => Except.error e
              | Except.ok a =>
                match py_div d a with
                | Except.error e => Except.error e
                | Except.ok q => py_mul q (PyVal.vint 100)) ≠
            Except.error PyExc.otherErr
        cases ha : py_abs p with
        | error e =>
            have h := py_abs_not_other p
            rw [ha] at h
            simpa using h
        | ok a =>
            show (match py_div d a with
                  | Except.error e => Except.error e
                  | Except.ok q => py_mul q (PyVal.vint 100)) ≠
                Except.error PyExc.otherErr
            cases hd : py_div d a with
            | error e =>
                have h := py_div_not_other d a
                rw [hd] at h
                simpa using h
            | ok q =>
                show py_mul q (PyVal.vint 100) ≠ Except.error PyExc.otherErr
                exact py_mul_not_other q (PyVal.vint 100)

set_option maxRecDepth 10000 in
/-- Counterexample to C9 as stated: at current equal to 10 to the 309
and previous equal to 1 the true division coerces a quotient beyond the
binary64 range, raising OverflowError, which the except clause at line
42 (catching only TypeError and ZeroDivisionError) lets escape, so the
caller observes an exception. -/
theorem c9_counterexample :
    calculate_percentage_change_py (PyVal.vint (10 ^ 309)) (PyVal.vint 1) =
      Except.error PyExc.overflowErr := by
  have hb : py_eq_zero (PyVal.vint 1) = false := rfl
  have h1 : py_sub (PyVal.vint (10 ^ 309)) (PyVal.vint 1) =
      Except.ok (PyVal.vint (10 ^ 309 - 1)) := rfl
  have h2 : py_abs (PyVal.vint 1) = Except.ok (PyVal.vint 1) := by
    norm_num [py_abs]
  have hnat : (2 : Nat) ^ 1024 + 1 ≤ 10 ^ 309 := by decide
  have h2r : (2 : Rat) ^ 1024 + 1 ≤ (10 : Rat) ^ 309 := by exact_mod_cast hnat
  have h970 : (0 : Rat) < 2 ^ 970 := by positivity
  have h1024 : (0 : Rat) < 2 ^ 1024 := by positivity
  have hq : floatOverflowBound ≤
      |((10 ^ 309 - 1 : Int) : Rat) / ((1 : Int) : Rat)| := by
    have hsimp : ((10 ^ 309 - 1 : Int) : Rat) / ((1 : Int) : Rat)
        = (10 : Rat) ^ 309 - 1 := by
      push_cast
      ring
    rw [hsimp, abs_of_pos (by linarith)]
    unfold floatOverflowBound
    linarith
  have h3 : py_div (PyVal.vint (10 ^ 309 - 1)) (PyVal.vint 1) =
      Except.error PyExc.overflowErr := by
    simp only [py_div]
    rw [if_neg (by norm_num), if_pos hq]
  simp only [calculate_percentage_change_py, pct_raw, hb,
    Bool.false_eq_true, if_false, h1, h2, h3]

/-- C9 as amended: the except clause swallows exactly TypeError and
ZeroDivisionError, replacing them with 0, so callers never observe a
type or zero-division fault; but an arithmetic fault outside that pair,
namely the OverflowError of an integer-to-binary64 coercion during the
division, is the one exception that can propagate to the caller. -/
theorem c9_amended_fault_policy :
    ∀ c p : PyVal,
      ((∃ v, calculate_percentage_change_py c p = Except.ok v)
        ∨ calculate_percentage_change_py c p = Except.error PyExc.overflowErr)
      ∧ calculate_percentage_change_py c p ≠ Except.error PyExc.typeErr
      ∧ calculate_percentage_change_py c p ≠ Except.error PyExc.zeroDivErr := by
  intro c p
  unfold calculate_percentage_change_py
  cases hr : pct_raw c p with
  | ok v => exact ⟨Or.inl ⟨v, rfl⟩, by simp, by simp⟩
  | error e =>
      cases e with
      | typeErr => exact ⟨Or.inl ⟨PyVal.vint 0, rfl⟩, by simp, by simp⟩
      | zeroDivErr => exact ⟨Or.inl ⟨PyVal.vint 0, rfl⟩, by simp, by simp⟩
      | overflowErr => exact ⟨Or.inr rfl, by simp, by simp⟩
      | otherErr => exact absurd hr (pct_raw_not_other c p)

/-! ## C10: visitor data against booking totals -/

/-- C10: in every assembled dashboard the visitor list has exactly the
two entries Room Guests and Venue Visitors, their visitor counts sum to
totalBookings, and visitorTrending equals totalBookingsChange, both
being the rounded percentage change of the same counts. -/
theorem c10_visitor_invariants :
    ∀ (rr vr prr pvr : List ReservationRec) (cur_rev prev_rev : Rat)
      (cur_av prev_av : Int) (tg ptg : Nat) (vm : String)
      (od : List (String × Nat)) (rd : List (String × Rat))
      (rt : List (String × Nat × Rat)),
      let d := build_dashboard rr vr prr pvr cur_rev prev_rev
        cur_av prev_av tg ptg vm od rd rt
      d.visitorData.map Prod.fst = [nameRoomGuests, nameVenueVisitors]
      ∧ d.visitorData.length = 2
      ∧ (d.visitorData.map Prod.snd).sum = d.totalBookings
      ∧ d.visitorTrending = d.totalBookingsChange := by
  intro rr vr prr pvr cur_rev prev_rev cur_av prev_av tg ptg vm od rd rt
  refine ⟨?_, ?_, ?_, ?_⟩ <;> simp [build_dashboard]

end Lantaka
